import Mathlib

/-!
Shallow embedding of the HearMeOut backend (src/BackendCode): the POST /tts
handler in Server.py, the caption helper getCaption in ImageCaption.py, the
synthesis wrapper textToWav in TextToVoice.py, the two cleanup routines
delete_file and clearTempFolder, and the filesystem state they mutate (the
shared temp/ staging directory and the output/ directory).  External
capabilities (HTTP download, image decode, caption inference, speech
synthesis) and the uuid4 random source are parameters of a World record;
exceptions are Except values; FastAPI background tasks are a task list
executed after the response.
-/

namespace HearMeOut

/-- The fallback caption returned by getCaption when any step of its
try-block raises (ImageCaption.py, the except branch). -/
def fallbackCaption : String := "Error While Reading The Image"

/-- The initial value of the local variable text in tts_endpoint
(Server.py: text = "Failed to Read"), rebound on every branch before use. -/
def defaultText : String := "Failed to Read"

/-- Staging file path for identifier u (ImageCaption.py: filename built
from the temp directory, a fresh uuid4 and a .wav suffix). -/
def stagingPath (u : String) : String := "temp/" ++ u ++ ".wav"

/-- Output file path for identifier u (Server.py: filename built from the
output directory, a fresh uuid4 and a .wav suffix). -/
def outputPath (u : String) : String := "output/" ++ u ++ ".wav"

/-- Whether a path lies inside the temp/ staging directory: the scope of
the recursive removal performed by clearTempFolder. -/
def isStagingFile (p : String) : Bool := "temp/".data.isPrefixOf p.data

/-- Filesystem state: whether the temp/ and output/ directories exist, and
the set of files currently on storage (addressed by full path). -/
structure FS where
  tempDirExists : Bool
  outputDirExists : Bool
  files : Finset String
deriving DecidableEq

/-- External capabilities and the random identifier source.  download,
decode, infer model requests.get, Image.open + convert, and the
captioning model; synth models synthesizer.tts + save_wav; uuidStream is
the sequence of uuid4 draws, indexed by draw order. -/
structure World where
  download : String → Except String String
  decode : String → Except String String
  infer : String → Except String String
  synth : String → Except String String
  uuidStream : Nat → String

/-- Per-process state threaded through a request: the filesystem and the
index of the next uuid4 draw. -/
structure St where
  fs : FS
  ctr : Nat
deriving DecidableEq

/-- One call to the identifier generator (uuid.uuid4()): consumes the next
draw of the random stream. -/
def newId (w : World) (s : St) : String × St :=
  (w.uuidStream s.ctr, { s with ctr := s.ctr + 1 })

/-- The distinct ways the try-block of getCaption can raise. -/
inductive DescribeError where
  | downloadError
  | writeError
  | decodeError
  | inferenceError
deriving DecidableEq

/-- The try-block of getCaption (ImageCaption.py): download the url, draw a
fresh uuid, write the bytes to the staging file (raising if the temp/
directory does not exist), decode the image, run inference.  Returns the
caption or the first error raised, together with the updated state. -/
def getCaptionAttempt (w : World) (url : String) (s : St) :
    Except DescribeError String × St :=
  match w.download url with
  | Except.error _ => (Except.error DescribeError.downloadError, s)
  | Except.ok bytes =>
    let (u, s1) := newId w s
    if s1.fs.tempDirExists then
      let s2 : St :=
        { s1 with fs := { s1.fs with files := insert (stagingPath u) s1.fs.files } }
      match w.decode bytes with
      | Except.error _ => (Except.error DescribeError.decodeError, s2)
      | Except.ok img =>
        match w.infer img with
        | Except.error _ => (Except.error DescribeError.inferenceError, s2)
        | Except.ok caption => (Except.ok caption, s2)
    else
      (Except.error DescribeError.writeError, s1)

/-- getCaption (ImageCaption.py): the try-block, with every exception
caught and converted to the fallback caption string. -/
def getCaption (w : World) (url : String) (s : St) : String × St :=
  match getCaptionAttempt w url s with
  | (Except.ok caption, s1) => (caption, s1)
  | (Except.error _, s1) => (fallbackCaption, s1)

/-- textToWav (TextToVoice.py): synthesize the text and save the wav to
the output path.  Synthesis errors propagate (no try/except here). -/
def textToWav (w : World) (text output : String) (fs : FS) : Except String FS :=
  match w.synth text with
  | Except.error e => Except.error e
  | Except.ok _wav => Except.ok { fs with files := insert output fs.files }

/-- delete_file (Server.py): os.remove wrapped in try/except pass, so a
missing file is a no-op and no error ever escapes. -/
def delete_file (path : String) (fs : FS) : FS :=
  { fs with files := fs.files.erase path }

/-- clearTempFolder (Server.py): if temp/ exists, recursively remove it
(deleting every file inside it, whoever owns it), then recreate it. -/
def clearTempFolder (fs : FS) : FS :=
  let fs1 := if fs.tempDirExists then
               { fs with files := fs.files.filter (fun p => isStagingFile p = false) }
             else fs
  { fs1 with tempDirExists := true }

/-- The JSON request body, as the dict lookups the handler performs:
data.get of type, data bracket imageUrl (raising KeyError when absent),
data.get of text with default empty string. -/
structure Payload where
  type? : Option String
  imageUrl? : Option String
  text? : Option String
deriving DecidableEq

/-- A cleanup action registered with FastAPI BackgroundTasks. -/
inductive CleanupTask where
  | deleteFile (path : String)
  | clearTemp
deriving DecidableEq

/-- The outcome of one call to the handler: the response (ok carries the
FileResponse path, error a propagated exception surfaced as an HTTP
fault), the text passed to textToWav if synthesis was reached, the
background tasks registered, and the state after the handler body. -/
structure HandlerResult where
  resp : Except String String
  synthesized : Option String
  tasks : List CleanupTask
  st : St

/-- The branch of tts_endpoint that resolves the text to synthesize: image
requests read data.imageUrl (raising KeyError when absent) and call
getCaption; every other request reads data.text with default empty
string. -/
def textStage (w : World) (data : Payload) (s : St) : Except String (String × St) :=
  if data.type? = some "image" then
    match data.imageUrl? with
    | none => Except.error "KeyError: imageUrl"
    | some url => Except.ok (getCaption w url s)
  else
    Except.ok (data.text?.getD "", s)

/-- The tail of tts_endpoint once the text is resolved: create the output
directory, draw a fresh output path, run textToWav (whose error, if any,
propagates as the response), register the two cleanup tasks and return
the file. -/
def afterText (w : World) (text : String) (s1 : St) : HandlerResult :=
  let s2 : St := { s1 with fs := { s1.fs with outputDirExists := true } }
  let r := newId w s2
  let filename := outputPath r.1
  match textToWav w text filename r.2.fs with
  | Except.error e =>
    { resp := Except.error e, synthesized := some text, tasks := [], st := r.2 }
  | Except.ok fs1 =>
    { resp := Except.ok filename, synthesized := some text,
      tasks := [CleanupTask.deleteFile filename, CleanupTask.clearTemp],
      st := { r.2 with fs := fs1 } }

/-- tts_endpoint (Server.py), generalized over the initial value of the
local variable text (the source initializes it to defaultText; every path
that reaches synthesis rebinds it first, so the parameter is dead). -/
def tts_endpoint_from (initText : String) (w : World) (data : Payload) (s : St) :
    HandlerResult :=
  match textStage w data s with
  | Except.error e => { resp := Except.error e, synthesized := none, tasks := [], st := s }
  | Except.ok (text, s1) => afterText w text s1

/-- tts_endpoint as written in the source, with text initialized to
defaultText. -/
def tts_endpoint (w : World) (data : Payload) (s : St) : HandlerResult :=
  tts_endpoint_from defaultText w data s

/-- Execute one registered cleanup task against the filesystem. -/
def runTask (fs : FS) (t : CleanupTask) : FS :=
  match t with
  | CleanupTask.deleteFile p => delete_file p fs
  | CleanupTask.clearTemp => clearTempFolder fs

/-- Execute a list of cleanup tasks in registration order. -/
def runTasks (fs : FS) (ts : List CleanupTask) : FS := ts.foldl runTask fs

/-- Observable events of one request's lifetime at the server. -/
inductive Event where
  | responseSent (path : String)
  | ranTask (t : CleanupTask)
deriving DecidableEq

/-- The event trace of one request under FastAPI semantics: per the
documented behavior of BackgroundTasks, registered tasks run only after
the response has been sent, so a successful request emits its response
event first and then one event per registered task, in order; a request
that raises sends an error response and runs no tasks (none were
registered before the raise). -/
def requestTrace (w : World) (data : Payload) (s : St) : List Event :=
  match (tts_endpoint w data s).resp with
  | Except.error _ => []
  | Except.ok p =>
    Event.responseSent p :: (tts_endpoint w data s).tasks.map Event.ranTask

/-- The set of staging artifacts currently on storage: the files lying in
the temp/ directory. -/
def stagingFiles (fs : FS) : Finset String :=
  fs.files.filter (fun p => isStagingFile p = true)

/-! Concrete worlds, states and payloads used to exercise the model. -/

/-- A world where every external capability succeeds and the uuid stream
yields the decimal rendering of the draw index. -/
def okWorld : World :=
  { download := fun _ => Except.ok "image-bytes"
  , decode := fun _ => Except.ok "decoded-image"
  , infer := fun _ => Except.ok "a cat sitting on a mat"
  , synth := fun _ => Except.ok "wav-bytes"
  , uuidStream := fun n => toString n }

/-- okWorld with an identifier stream whose injectivity has a direct
proof: the draw of index n is the string of n copies of the letter a. -/
def tagWorld : World :=
  { okWorld with uuidStream := fun n => String.mk (List.replicate n 'a') }

/-- okWorld with an unreachable image host. -/
def downWorld : World :=
  { okWorld with download := fun _ => Except.error "connection refused" }

/-- okWorld with a crashing speech synthesizer. -/
def synthFailWorld : World :=
  { okWorld with synth := fun _ => Except.error "synthesis crashed" }

/-- Cold-start filesystem: neither temp/ nor output/ exists and no file is
on storage. -/
def coldSt : St :=
  { fs := { tempDirExists := false, outputDirExists := false, files := ∅ }, ctr := 0 }

/-- Steady-state filesystem: both directories exist, no file on storage. -/
def warmSt : St :=
  { fs := { tempDirExists := true, outputDirExists := true, files := ∅ }, ctr := 0 }

/-- A plain text request. -/
def textPayload : Payload :=
  { type? := some "text", imageUrl? := none, text? := some "hello world" }

/-- An image request with a url. -/
def imagePayload : Payload :=
  { type? := some "image", imageUrl? := some "http://img.example/cat.png", text? := none }

/-- A non-image request carrying no text field. -/
def noTextPayload : Payload :=
  { type? := some "text", imageUrl? := none, text? := none }

/-- An image request missing the imageUrl field. -/
def noUrlPayload : Payload :=
  { type? := some "image", imageUrl? := none, text? := none }

/-- The staging identifier held by a still-in-flight request. -/
def inFlightStagingId : String := "7d793037-a076-4b4f-ae9f-1b2c8d1e9f00"

/-- A state in which another, still-in-flight request owns a staging
artifact under temp/. -/
def busySt : St :=
  { fs := { tempDirExists := true, outputDirExists := true,
            files := {stagingPath inFlightStagingId} }, ctr := 0 }

/-! Helper lemmas about paths and the filesystem operations. -/

lemma isStagingFile_stagingPath (u : String) : isStagingFile (stagingPath u) = true := by
  simp only [isStagingFile, stagingPath, String.data_append, List.append_assoc,
    List.isPrefixOf_iff_prefix]
  exact List.prefix_append _ _

lemma isStagingFile_outputPath (u : String) : isStagingFile (outputPath u) = false := by
  have h : ¬ ("temp/".data <+: (outputPath u).data) := by
    simp only [outputPath, String.data_append, List.append_assoc]
    intro hp
    rw [List.cons_append, List.cons_prefix_cons] at hp
    exact absurd hp.1 (by decide)
  rw [isStagingFile]
  exact Bool.eq_false_iff.mpr (fun hb => h (List.isPrefixOf_iff_prefix.mp hb))

lemma string_wrap_inj {a b : String} (p q : String)
    (h : p ++ a ++ q = p ++ b ++ q) : a = b := by
  have hd := congrArg String.data h
  simp only [String.data_append, List.append_assoc] at hd
  have h1 := List.append_cancel_left hd
  exact String.ext (List.append_cancel_right h1)

lemma stagingPath_inj {u v : String} (h : stagingPath u = stagingPath v) : u = v :=
  string_wrap_inj _ _ h

lemma outputPath_inj {u v : String} (h : outputPath u = outputPath v) : u = v :=
  string_wrap_inj _ _ h

lemma stagingPath_ne_outputPath (u v : String) : stagingPath u ≠ outputPath v := by
  intro h
  have hd := congrArg String.data h
  simp only [stagingPath, outputPath, String.data_append, List.append_assoc] at hd
  rw [List.cons_append, List.cons_append] at hd
  injection hd with h1 _
  exact absurd h1 (by decide)

lemma mem_of_mem_clearTempFolder {fs : FS} {p : String}
    (h : p ∈ (clearTempFolder fs).files) : p ∈ fs.files := by
  rw [clearTempFolder] at h
  by_cases hc : fs.tempDirExists = true
  · simp only [hc, if_true] at h
    exact (Finset.mem_filter.mp h).1
  · simp only [hc, if_false] at h
    exact h

lemma delete_file_of_not_mem {p : String} {fs : FS} (h : p ∉ fs.files) :
    delete_file p fs = fs := by
  rw [delete_file, Finset.erase_eq_of_not_mem h]

lemma tts_endpoint_eq (w : World) (data : Payload) (s : St) :
    tts_endpoint w data s =
      match textStage w data s with
      | Except.error e =>
        { resp := Except.error e, synthesized := none, tasks := [], st := s }
      | Except.ok (text, s1) => afterText w text s1 := rfl

lemma textStage_text {data : Payload} (w : World) (s : St)
    (hty : data.type? ≠ some "image") :
    textStage w data s = Except.ok (data.text?.getD "", s) := by
  rw [textStage, if_neg hty]

lemma textStage_image {data : Payload} (w : World) (s : St) {url : String}
    (hty : data.type? = some "image") (hurl : data.imageUrl? = some url) :
    textStage w data s = Except.ok (getCaption w url s) := by
  rw [textStage, if_pos hty, hurl]

lemma textStage_missing_url {data : Payload} (w : World) (s : St)
    (hty : data.type? = some "image") (hurl : data.imageUrl? = none) :
    textStage w data s = Except.error "KeyError: imageUrl" := by
  rw [textStage, if_pos hty, hurl]

lemma afterText_synth_error {w : World} {text : String} (s1 : St) {err : String}
    (hs : w.synth text = Except.error err) :
    afterText w text s1 =
      { resp := Except.error err, synthesized := some text, tasks := [],
        st := { fs := { s1.fs with outputDirExists := true }, ctr := s1.ctr + 1 } } := by
  simp only [afterText, textToWav, newId, hs]

lemma afterText_synth_ok {w : World} {text : String} (s1 : St) {wav : String}
    (hs : w.synth text = Except.ok wav) :
    afterText w text s1 =
      { resp := Except.ok (outputPath (w.uuidStream s1.ctr)), synthesized := some text,
        tasks := [CleanupTask.deleteFile (outputPath (w.uuidStream s1.ctr)),
                  CleanupTask.clearTemp],
        st := { fs := { s1.fs with outputDirExists := true, files := insert (outputPath (w.uuidStream s1.ctr)) s1.fs.files },
                ctr := s1.ctr + 1 } } := by
  simp only [afterText, textToWav, newId, hs]

lemma getCaption_eq_fallback {w : World} {url : String} {s : St} {e : DescribeError}
    (h : (getCaptionAttempt w url s).1 = Except.error e) :
    getCaption w url s = (fallbackCaption, (getCaptionAttempt w url s).2) := by
  rcases hA : getCaptionAttempt w url s with ⟨r, s1⟩
  rw [hA] at h
  change r = Except.error e at h
  subst h
  rw [getCaption, hA]

lemma getCaption_snd (w : World) (url : String) (s : St) :
    (getCaption w url s).2 = (getCaptionAttempt w url s).2 := by
  rw [getCaption]
  rcases hA : getCaptionAttempt w url s with ⟨r, s1⟩
  cases r <;> rfl

lemma getCaptionAttempt_files_cases (w : World) (url : String) (s : St) :
    ((getCaptionAttempt w url s).2).fs.files = s.fs.files ∨
    ((getCaptionAttempt w url s).2).fs.files =
      insert (stagingPath (w.uuidStream s.ctr)) s.fs.files := by
  rw [getCaptionAttempt]
  cases hdl : w.download url with
  | error e => exact Or.inl rfl
  | ok bytes =>
    simp only [newId]
    by_cases ht : s.fs.tempDirExists = true
    · simp only [ht, if_true]
      cases hdec : w.decode bytes with
      | error e => exact Or.inr rfl
      | ok img =>
        dsimp only
        cases hinf : w.infer img with
        | error e2 => exact Or.inr rfl
        | ok cap => exact Or.inr rfl
    · rw [Bool.not_eq_true] at ht
      simp [ht]

lemma getCaptionAttempt_no_temp {w : World} {url : String} {s : St} {bytes : String}
    (hdl : w.download url = Except.ok bytes) (htemp : s.fs.tempDirExists = false) :
    (getCaptionAttempt w url s).1 = Except.error DescribeError.writeError := by
  rw [getCaptionAttempt, hdl]
  simp only [newId, htemp, Bool.false_eq_true, if_false]


lemma tts_image_fallback_of_attempt_error {w : World} {data : Payload} {s : St}
    {url : String} {e : DescribeError} {wav : String}
    (hty : data.type? = some "image") (hurl : data.imageUrl? = some url)
    (hfail : (getCaptionAttempt w url s).1 = Except.error e)
    (hsynth : w.synth fallbackCaption = Except.ok wav) :
    (tts_endpoint w data s).synthesized = some fallbackCaption ∧
    ∃ p, (tts_endpoint w data s).resp = Except.ok p := by
  rw [tts_endpoint_eq, textStage_image w s hty hurl, getCaption_eq_fallback hfail]
  dsimp only
  rw [afterText_synth_ok _ hsynth]
  exact ⟨rfl, _, rfl⟩

lemma tts_tasks_of_ok {w : World} {data : Payload} {s : St} {p : String}
    (hok : (tts_endpoint w data s).resp = Except.ok p) :
    (tts_endpoint w data s).tasks = [CleanupTask.deleteFile p, CleanupTask.clearTemp] := by
  rw [tts_endpoint_eq] at hok ⊢
  cases hts : textStage w data s with
  | error e =>
    rw [hts] at hok
    exact absurd hok (by simp)
  | ok pair =>
    obtain ⟨text, s1⟩ := pair
    rw [hts] at hok
    dsimp only at hok ⊢
    cases hs : w.synth text with
    | error e =>
      rw [afterText_synth_error _ hs] at hok
      exact absurd hok (by simp)
    | ok wav =>
      rw [afterText_synth_ok _ hs] at hok ⊢
      dsimp only at hok ⊢
      rw [Except.ok.injEq] at hok
      rw [hok]

lemma not_mem_runTasks_delete_clear (fs : FS) (p : String) :
    p ∉ (runTasks fs [CleanupTask.deleteFile p, CleanupTask.clearTemp]).files := by
  show p ∉ (clearTempFolder (delete_file p fs)).files
  intro hmem
  have h1 := mem_of_mem_clearTempFolder hmem
  exact absurd h1 (Finset.not_mem_erase _ _)

/-! The claims. -/

/-- C1: the claim states that a cleanup action registered by a request R
never deletes a staging artifact owned by a different, still-in-flight
request.  The code violates it: every request registers clearTempFolder,
which purges the whole temp/ directory.  Here a completing text request R
registers its cleanup tasks, and executing them deletes the staging
artifact owned by the other in-flight request. -/
theorem clearTemp_deletes_foreign_staging :
    stagingPath inFlightStagingId ∈ busySt.fs.files ∧
    (tts_endpoint okWorld textPayload busySt).resp = Except.ok (outputPath "0") ∧
    CleanupTask.clearTemp ∈ (tts_endpoint okWorld textPayload busySt).tasks ∧
    stagingPath inFlightStagingId ∈ (tts_endpoint okWorld textPayload busySt).st.fs.files ∧
    stagingPath inFlightStagingId ∉
      (runTasks (tts_endpoint okWorld textPayload busySt).st.fs
        (tts_endpoint okWorld textPayload busySt).tasks).files :=
  ⟨by decide, rfl, by decide, by decide, by decide⟩

/-- C2: for every image request whose description step fails (any raise
inside getCaption's try-block), the handler proceeds with exactly the
fallback string as the text to synthesize and, synthesis succeeding, the
caller receives a success response rather than an error. -/
theorem describe_failure_recovered_as_fallback_audio
    (w : World) (data : Payload) (s : St) (url : String) (e : DescribeError) (wav : String)
    (hty : data.type? = some "image") (hurl : data.imageUrl? = some url)
    (hfail : (getCaptionAttempt w url s).1 = Except.error e)
    (hsynth : w.synth fallbackCaption = Except.ok wav) :
    (tts_endpoint w data s).synthesized = some fallbackCaption ∧
    ∃ p, (tts_endpoint w data s).resp = Except.ok p :=
  tts_image_fallback_of_attempt_error hty hurl hfail hsynth

/-- Witness for C2: an unreachable image host, concrete request. -/
theorem describe_failure_recovered_witness :
    (tts_endpoint downWorld imagePayload warmSt).synthesized = some fallbackCaption ∧
    ∃ p, (tts_endpoint downWorld imagePayload warmSt).resp = Except.ok p :=
  describe_failure_recovered_as_fallback_audio downWorld imagePayload warmSt
    "http://img.example/cat.png" DescribeError.downloadError "wav-bytes" rfl rfl rfl rfl

/-- C3: if the speech-synthesis step fails, the request terminates with
the error surfaced to the caller as an error response, no cleanup task is
registered, and no output artifact is produced (any file present beyond
the initial state lies in the staging area). -/
theorem synth_failure_terminal
    (w : World) (data : Payload) (s : St) (err : String)
    (hwf : data.type? = some "image" → data.imageUrl?.isSome = true)
    (hfail : ∀ t, w.synth t = Except.error err) :
    (tts_endpoint w data s).resp = Except.error err ∧
    (tts_endpoint w data s).tasks = [] ∧
    ((tts_endpoint w data s).st.fs.files.filter (fun p => isStagingFile p = false))
      ⊆ s.fs.files := by
  by_cases hty : data.type? = some "image"
  · obtain ⟨url, hurl⟩ := Option.isSome_iff_exists.mp (hwf hty)
    rw [tts_endpoint_eq, textStage_image w s hty hurl]
    dsimp only
    rw [afterText_synth_error _ (hfail _)]
    refine ⟨rfl, rfl, ?_⟩
    intro p hp
    rw [Finset.mem_filter] at hp
    obtain ⟨hp1, hp2⟩ := hp
    rw [show ((getCaption w url s).2.fs.files) = ((getCaptionAttempt w url s).2.fs.files) from
      by rw [getCaption_snd]] at hp1
    rcases getCaptionAttempt_files_cases w url s with hc | hc
    · rw [hc] at hp1
      exact hp1
    · rw [hc] at hp1
      rcases Finset.mem_insert.mp hp1 with h | h
      · subst h
        rw [isStagingFile_stagingPath] at hp2
        exact absurd hp2 (by simp)
      · exact h
  · rw [tts_endpoint_eq, textStage_text w s hty]
    dsimp only
    rw [afterText_synth_error _ (hfail _)]
    exact ⟨rfl, rfl, Finset.filter_subset _ _⟩

/-- Witness for C3: a crashing synthesizer on a concrete text request. -/
theorem synth_failure_terminal_witness :
    (tts_endpoint synthFailWorld textPayload warmSt).resp =
      Except.error "synthesis crashed" ∧
    (tts_endpoint synthFailWorld textPayload warmSt).tasks = [] ∧
    ((tts_endpoint synthFailWorld textPayload warmSt).st.fs.files.filter
      (fun p => isStagingFile p = false)) ⊆ warmSt.fs.files :=
  synth_failure_terminal synthFailWorld textPayload warmSt "synthesis crashed"
    (fun h => absurd h (by decide)) (fun _ => rfl)

/-- C4: every successful request registers a cleanup task deleting its
output artifact; in the request trace the response event strictly
precedes every task-execution event; and after the registered tasks run,
the output artifact no longer exists on storage. -/
theorem output_cleanup_after_response
    (w : World) (data : Payload) (s : St) (p : String)
    (hok : (tts_endpoint w data s).resp = Except.ok p) :
    CleanupTask.deleteFile p ∈ (tts_endpoint w data s).tasks ∧
    requestTrace w data s =
      Event.responseSent p :: (tts_endpoint w data s).tasks.map Event.ranTask ∧
    p ∉ (runTasks (tts_endpoint w data s).st.fs (tts_endpoint w data s).tasks).files := by
  have htasks := tts_tasks_of_ok hok
  refine ⟨?_, ?_, ?_⟩
  · rw [htasks]
    exact List.mem_cons_self _ _
  · simp only [requestTrace, hok]
  · rw [htasks]
    exact not_mem_runTasks_delete_clear _ p

/-- Witness for C4: a concrete successful text request. -/
theorem output_cleanup_after_response_witness :
    CleanupTask.deleteFile "output/0.wav" ∈ (tts_endpoint okWorld textPayload warmSt).tasks ∧
    requestTrace okWorld textPayload warmSt =
      Event.responseSent "output/0.wav" ::
        (tts_endpoint okWorld textPayload warmSt).tasks.map Event.ranTask ∧
    "output/0.wav" ∉ (runTasks (tts_endpoint okWorld textPayload warmSt).st.fs
      (tts_endpoint okWorld textPayload warmSt).tasks).files :=
  output_cleanup_after_response okWorld textPayload warmSt "output/0.wav" rfl

/-- C5: distinct calls to the identifier generator (distinct draw
indexes) return distinct identifiers whenever the underlying 128-bit
random stream is collision-free (the spec's negligible-collision
assumption, stated as injectivity), and the derived staging and output
paths are injective in the identifier and never collide across areas. -/
theorem newId_pairwise_distinct (w : World) (hinj : Function.Injective w.uuidStream) :
    (∀ s s1 : St, s.ctr ≠ s1.ctr → (newId w s).1 ≠ (newId w s1).1) ∧
    (∀ u v : String, u ≠ v → stagingPath u ≠ stagingPath v ∧ outputPath u ≠ outputPath v) ∧
    (∀ u v : String, stagingPath u ≠ outputPath v) := by
  refine ⟨?_, ?_, stagingPath_ne_outputPath⟩
  · intro s s1 hne h
    exact hne (hinj h)
  · intro u v huv
    exact ⟨fun h => huv (stagingPath_inj h), fun h => huv (outputPath_inj h)⟩

/-- Witness for C5: a concrete injective identifier stream. -/
theorem newId_pairwise_distinct_witness :
    (∀ s s1 : St, s.ctr ≠ s1.ctr → (newId tagWorld s).1 ≠ (newId tagWorld s1).1) ∧
    (∀ u v : String, u ≠ v → stagingPath u ≠ stagingPath v ∧ outputPath u ≠ outputPath v) ∧
    (∀ u v : String, stagingPath u ≠ outputPath v) :=
  newId_pairwise_distinct tagWorld (fun a b h => by
    simp only [tagWorld, okWorld] at h
    have hh := congrArg (fun t : String => t.data.length) h
    simpa using hh)

/-- C6: delete_file is idempotent: deleting a missing file is a no-op
that raises no error, and deleting the same artifact twice leaves the
same state as deleting it once. -/
theorem delete_file_idempotent (p : String) (fs : FS) :
    (p ∉ fs.files → delete_file p fs = fs) ∧
    delete_file p (delete_file p fs) = delete_file p fs := by
  refine ⟨delete_file_of_not_mem, ?_⟩
  simp only [delete_file]
  rw [Finset.erase_idem]

/-- Witness for C6: deleting a file absent from an empty storage. -/
theorem delete_file_idempotent_witness :
    delete_file "output/0.wav" warmSt.fs = warmSt.fs ∧
    delete_file "output/0.wav" (delete_file "output/0.wav" warmSt.fs) =
      delete_file "output/0.wav" warmSt.fs :=
  ⟨(delete_file_idempotent "output/0.wav" warmSt.fs).1 (by decide),
   (delete_file_idempotent "output/0.wav" warmSt.fs).2⟩

/-- C7: a request whose type is not image never allocates or writes a
staging artifact: the staging area's set of artifacts is unchanged by the
handler. -/
theorem text_request_staging_unchanged (w : World) (data : Payload) (s : St)
    (hty : data.type? ≠ some "image") :
    stagingFiles (tts_endpoint w data s).st.fs = stagingFiles s.fs := by
  rw [tts_endpoint_eq, textStage_text w s hty]
  dsimp only
  cases hs : w.synth (data.text?.getD "") with
  | error e =>
    rw [afterText_synth_error _ hs]
    rfl
  | ok wav =>
    rw [afterText_synth_ok _ hs]
    rw [stagingFiles, stagingFiles]
    dsimp only
    rw [Finset.filter_insert, if_neg]
    rw [isStagingFile_outputPath]
    simp

/-- Witness for C7: a concrete text request against steady state. -/
theorem text_request_staging_unchanged_witness :
    stagingFiles (tts_endpoint okWorld textPayload warmSt).st.fs = stagingFiles warmSt.fs :=
  text_request_staging_unchanged okWorld textPayload warmSt (by decide)

/-- C8: a non-image request without a text field synthesizes exactly the
empty string, and the initial default text is dead: the handler's outcome
is independent of it on every input. -/
theorem missing_text_synthesizes_empty (w : World) (data : Payload) (s : St)
    (hty : data.type? ≠ some "image") (htxt : data.text? = none) :
    (tts_endpoint w data s).synthesized = some "" ∧
    ∀ (d1 d2 : String) (data2 : Payload) (s2 : St),
      tts_endpoint_from d1 w data2 s2 = tts_endpoint_from d2 w data2 s2 := by
  refine ⟨?_, fun d1 d2 data2 s2 => rfl⟩
  rw [tts_endpoint_eq, textStage_text w s hty, htxt, Option.getD_none]
  dsimp only
  cases hs : w.synth "" with
  | error e => rw [afterText_synth_error _ hs]
  | ok wav => rw [afterText_synth_ok _ hs]

/-- Witness for C8: a concrete text-less request. -/
theorem missing_text_synthesizes_empty_witness :
    (tts_endpoint okWorld noTextPayload warmSt).synthesized = some "" ∧
    ∀ (d1 d2 : String) (data2 : Payload) (s2 : St),
      tts_endpoint_from d1 okWorld data2 s2 = tts_endpoint_from d2 okWorld data2 s2 :=
  missing_text_synthesizes_empty okWorld noTextPayload warmSt (by decide) rfl

/-- C9: an image-typed request without an imageUrl field raises the
missing-key error before any captioning, fallback or synthesis: the
response is the propagated error, nothing was synthesized, no cleanup
task was registered and the state is untouched. -/
theorem missing_imageUrl_raises (w : World) (data : Payload) (s : St)
    (hty : data.type? = some "image") (hurl : data.imageUrl? = none) :
    (tts_endpoint w data s).resp = Except.error "KeyError: imageUrl" ∧
    (tts_endpoint w data s).synthesized = none ∧
    (tts_endpoint w data s).tasks = [] ∧
    (tts_endpoint w data s).st = s := by
  rw [tts_endpoint_eq, textStage_missing_url w s hty hurl]
  exact ⟨rfl, rfl, rfl, rfl⟩

/-- Witness for C9: a concrete image request with no url field. -/
theorem missing_imageUrl_raises_witness :
    (tts_endpoint okWorld noUrlPayload warmSt).resp = Except.error "KeyError: imageUrl" ∧
    (tts_endpoint okWorld noUrlPayload warmSt).synthesized = none ∧
    (tts_endpoint okWorld noUrlPayload warmSt).tasks = [] ∧
    (tts_endpoint okWorld noUrlPayload warmSt).st = warmSt :=
  missing_imageUrl_raises okWorld noUrlPayload warmSt rfl rfl

/-- C10: when the temp/ directory does not exist while an image request
is processed, the staging write inside getCaption raises, the exception
is caught, and the request returns success audio of the fallback string
even though the image url downloads fine. -/
theorem cold_start_image_fallback (w : World) (data : Payload) (s : St)
    (url bytes wav : String)
    (hty : data.type? = some "image") (hurl : data.imageUrl? = some url)
    (htemp : s.fs.tempDirExists = false)
    (hdl : w.download url = Except.ok bytes)
    (hsynth : w.synth fallbackCaption = Except.ok wav) :
    (tts_endpoint w data s).synthesized = some fallbackCaption ∧
    ∃ p, (tts_endpoint w data s).resp = Except.ok p :=
  tts_image_fallback_of_attempt_error hty hurl
    (getCaptionAttempt_no_temp hdl htemp) hsynth

/-- Witness for C10: cold start with every capability healthy. -/
theorem cold_start_image_fallback_witness :
    (tts_endpoint okWorld imagePayload coldSt).synthesized = some fallbackCaption ∧
    ∃ p, (tts_endpoint okWorld imagePayload coldSt).resp = Except.ok p :=
  cold_start_image_fallback okWorld imagePayload coldSt
    "http://img.example/cat.png" "image-bytes" "wav-bytes" rfl rfl rfl rfl rfl

end HearMeOut
